import Mathlib

/-!
Shallow embedding of `main.py` (single-job LP optimization batch runner).

Conventions of the embedding:
* Python floats are modelled as rationals (`ℚ`); numeric rendering is via
  `ratStr` (serialization format is a collaborator detail).
* The Python dict comprehensions `{r.product: f(r) for r in products.itertuples()}`
  have last-write-wins semantics; they are modelled by `lastMatch` (a `find?`
  over the reversed row list).
* Fallible steps return `Except PyError`; external collaborators (pandas/json
  parsing, boto3 transport, the Gurobi engine) enter as explicit parameters
  (parsed values, terminal status, variable assignment, per-file upload outcome).
* The observable world (console lines, the append-only application log file,
  the solver log file, the S3 object store, upload attempts, lifecycle stages)
  is a `JobState` record threaded through the control flow.
* Python module-level name resolution is modelled explicitly (`mainModuleGlobals`,
  `resolveName`), because `main.py` references the name `platform` without
  importing it.
-/

deriving instance DecidableEq for Except

namespace GurobiSample

/-- One row of `input/products.csv` (columns `product, profit, resA, resB`). -/
structure Product where
  product : String
  profit : ℚ
  resA : ℚ
  resB : ℚ
deriving DecidableEq

/-- Capacity map parsed from `input/capacities.json`: resource name to bound. -/
abbrev CapMap := List (String × ℚ)

/-- Last-write-wins row lookup, mirroring the Python dict comprehensions
`{r.product: ... for r in products.itertuples()}` built in `solve`. -/
def lastMatch (products : List Product) (i : String) : Option Product :=
  products.reverse.find? (fun p => p.product == i)

/-- `profit[i]` as `solve` builds it (line 106). -/
def lastProfit (products : List Product) (i : String) : ℚ :=
  ((lastMatch products i).map Product.profit).getD 0

/-- `resA[i]` as `solve` builds it (line 107). -/
def lastResA (products : List Product) (i : String) : ℚ :=
  ((lastMatch products i).map Product.resA).getD 0

/-- `resB[i]` as `solve` builds it (line 108). -/
def lastResB (products : List Product) (i : String) : ℚ :=
  ((lastMatch products i).map Product.resB).getD 0

/-- A Gurobi decision variable as created by `m.addVars(items, lb=0.0)`:
a name, a lower bound, and (absent here) an upper bound. -/
structure LPVar where
  name : String
  lb : ℚ
  ub : Option ℚ
deriving DecidableEq

/-- One `<=` constraint `sum(coef[i] * x[i]) <= bound`. -/
structure LPConstraint where
  coeffs : List (String × ℚ)
  bound : ℚ
deriving DecidableEq

/-- Objective sense (`GRB.MAXIMIZE` in the source). -/
inductive Sense where
  | maximize
  | minimize
deriving DecidableEq

/-- The abstract linear program `solve` hands to the engine. -/
structure LinearProgram where
  vars : List LPVar
  objective : List (String × ℚ)
  sense : Sense
  constraints : List LPConstraint
deriving DecidableEq

/-- Model-building portion of `solve` (main.py lines 105-113): one variable per
product row (`lb=0.0`, no `ub`), maximize `sum(profit[i]*x[i])`, and one `<=`
constraint per recognized capacity key (`resA`, `resB`) present in `caps`. -/
def buildLP (products : List Product) (caps : CapMap) : LinearProgram :=
  let items := products.map Product.product
  { vars := items.map (fun i => { name := i, lb := 0, ub := none }),
    objective := items.map (fun i => (i, lastProfit products i)),
    sense := Sense.maximize,
    constraints :=
      (match caps.lookup ("resA") with
       | some b => [{ coeffs := items.map (fun i => (i, lastResA products i)), bound := b }]
       | none => []) ++
      (match caps.lookup ("resB") with
       | some b => [{ coeffs := items.map (fun i => (i, lastResB products i)), bound := b }]
       | none => []) }

lemma lookup_isSome_iff (caps : CapMap) (k : String) :
    (caps.lookup k).isSome = true ↔ k ∈ caps.map Prod.fst := by
  induction caps with
  | nil => simp [List.lookup]
  | cons hd tl ih =>
      by_cases h : k = hd.1
      · simp [List.lookup, h]
      · have hb : (k == hd.1) = false := by
          simpa using h
        simp [List.lookup, hb, ih, h]

lemma pair_inter_card (a b : String) (hab : a ≠ b) (S : Finset String) :
    (({a, b} : Finset String) ∩ S).card
      = (if a ∈ S then 1 else 0) + (if b ∈ S then 1 else 0) := by
  by_cases ha : a ∈ S <;> by_cases hb : b ∈ S
  · rw [Finset.insert_inter_of_mem ha, Finset.singleton_inter_of_mem hb]
    simp [ha, hb, Finset.card_insert_of_not_mem, hab]
  · rw [Finset.insert_inter_of_mem ha, Finset.singleton_inter_of_not_mem hb]
    simp [ha, hb]
  · rw [Finset.insert_inter_of_not_mem ha, Finset.singleton_inter_of_mem hb]
    simp [ha, hb]
  · rw [Finset.insert_inter_of_not_mem ha, Finset.singleton_inter_of_not_mem hb]
    simp [ha, hb]

/-- Python exception values that `main.py` can raise or observe. -/
inductive PyError where
  | nameError (n : String)
  | runtimeError (msg : String)
  | fileNotFoundError (msg : String)
  | other (msg : String)
deriving DecidableEq

/-- Rendering of an exception as `str(e)` (used in the failure log payload). -/
def errStr : PyError → String
  | PyError.nameError n => ("NameError: name ") ++ n ++ (" is not defined")
  | PyError.runtimeError m => m
  | PyError.fileNotFoundError m => m
  | PyError.other m => m

/-- `GRB.OPTIMAL` status code. -/
def GRB_OPTIMAL : Nat := 2

/-- What the external Gurobi engine reports back from `m.optimize()`:
a terminal status code, the objective value, and the variable assignment
(`x[i].X` keyed by variable name). -/
structure SolverOutcome where
  status : Nat
  objVal : ℚ
  xval : String → ℚ

/-- One row of the result DataFrame built at main.py lines 122-125. -/
structure SolRow where
  product : String
  quantity : ℚ
  profit_contrib : ℚ
deriving DecidableEq

/-- Result projection (main.py lines 122-125): one row per entry of `items`,
`quantity = x[i].X`, `profit_contrib = profit[i]*x[i].X`. -/
def projectSolution (products : List Product) (xval : String → ℚ) : List SolRow :=
  (products.map Product.product).map
    (fun i => { product := i, quantity := xval i, profit_contrib := lastProfit products i * xval i })

/-- Status handling and projection at the tail of `solve` (main.py lines 119-126):
any non-`GRB.OPTIMAL` terminal status raises `RuntimeError(f"status={m.status}")`;
on optimal, the objective value and the projected rows are returned. -/
def solveOutcome (products : List Product) (out : SolverOutcome) :
    Except PyError (ℚ × List SolRow) :=
  if out.status ≠ GRB_OPTIMAL then
    Except.error (PyError.runtimeError (("status=") ++ toString out.status))
  else
    Except.ok (out.objVal, projectSolution products out.xval)

/-- Deterministic rendering of a rational (stands in for Python float formatting). -/
def ratStr (q : ℚ) : String := toString q.num ++ ("/") ++ toString q.den

/-- One structured log record: UTC timestamp, message, optional payload
(ordered key/value pairs, values already rendered). -/
structure LogRecord where
  ts : String
  msg : String
  payload : Option (List (String × String))
deriving DecidableEq

/-- JSON-ish rendering of a payload (`json.dumps` collaborator). -/
def renderPayload (kvs : List (String × String)) : String :=
  ("\x7b") ++ String.intercalate (", ") (kvs.map (fun kv => kv.1 ++ (": ") ++ kv.2)) ++ ("\x7d")

/-- The single physical line the `log` function prints and appends
(main.py lines 45-56). -/
def renderLine (r : LogRecord) : String :=
  match r.payload with
  | some kvs => r.ts ++ (" ") ++ r.msg ++ (" ") ++ renderPayload kvs
  | none => r.ts ++ (" ") ++ r.msg

/-- Lifecycle stages of the job (spec section 4.7). -/
inductive Stage where
  | STARTING
  | LOADING
  | SOLVING
  | PROJECTING
  | WRITING
  | SUCCEEDED
  | FAILED
deriving DecidableEq

def appLogPath : String := "/tmp/app.log"

def grbLogPath : String := "/tmp/gurobi.log"

/-- The observable world threaded through the job:
console lines, the append-only contents of `/tmp/app.log` (as structured
records; the file holds `renderLine` of each), console output produced by the
solver itself, whether `/tmp/gurobi.log` exists, the S3 object store
(uri to body), the `s3.upload_file` attempts made, and lifecycle stages. -/
structure JobState where
  console : List String
  solverConsole : List String
  appLog : List LogRecord
  grbLogFile : Bool
  s3 : List (String × String)
  uploads : List (String × String)
  stages : List Stage
deriving DecidableEq

def initialState : JobState :=
  { console := [], solverConsole := [], appLog := [], grbLogFile := false,
    s3 := [], uploads := [], stages := [] }

/-- The `log` function (main.py lines 45-56): print one line to the console and
append the same line to `/tmp/app.log`, within the one call. -/
def logRec (st : JobState) (r : LogRecord) : JobState :=
  { st with console := st.console ++ [renderLine r], appLog := st.appLog ++ [r] }

def infoRec (ts msg : String) (kvs : List (String × String)) : LogRecord :=
  { ts := ts, msg := msg, payload := some kvs }

def pushStage (st : JobState) (s : Stage) : JobState :=
  { st with stages := st.stages ++ [s] }

/-- S3 `put_object`: storing under an existing uri overwrites the object. -/
def s3put (s : List (String × String)) (k : String) (body : String) :
    List (String × String) :=
  s.filter (fun kv => !(kv.1 == k)) ++ [(k, body)]

def s3key (bucket key : String) : String := bucket ++ ("/") ++ key

/-- Number of stored objects under a given uri. -/
def countKey (s : List (String × String)) (k : String) : Nat :=
  (s.filter (fun kv => kv.1 == k)).length

/-- Number of upload attempts recorded for a given local file path. -/
def attemptsFor (l : List (String × String)) (path : String) : Nat :=
  (l.filter (fun q => q.1 == path)).length

/-- `df.to_csv(index=False)` for the solution DataFrame: header then rows. -/
def csvRow (r : SolRow) : String :=
  r.product ++ (",") ++ ratStr r.quantity ++ (",") ++ ratStr r.profit_contrib ++ ("\n")

def solutionToCsv (sol : List SolRow) : String :=
  ("product,quantity,profit_contrib\n") ++ String.join (sol.map csvRow)

/-- `write_s3_output` (main.py lines 34-39): put the CSV at
`{job_id}/output/solution.csv` in the bucket, then log the destination. -/
def writeS3Output (st : JobState) (ts : String) (sol : List SolRow)
    (bucket job_id : String) : JobState :=
  let key := job_id ++ ("/output/solution.csv")
  let st1 := { st with s3 := s3put st.s3 (s3key bucket key) (solutionToCsv sol) }
  logRec st1 (infoRec ts ("[info] wrote solution")
    [(("s3_uri"), ("s3://") ++ bucket ++ ("/") ++ key)])

/-- The output-sink step of `main` (lines 153-154): write to S3 only when
`use_s3` is set; in local mode nothing at all happens. -/
def outputSink (st : JobState) (ts : String) (useS3 : Bool) (sol : List SolRow)
    (bucket job_id : String) : JobState :=
  if useS3 then writeS3Output st ts sol bucket job_id else st

/-- One `s3.upload_file` call: the attempt is recorded, then either the
transport raises (`err = some e`) or the success notice is printed. -/
def attemptUpload (st : JobState) (path bucket key : String)
    (err : Option PyError) : JobState × Option PyError :=
  let st1 := { st with uploads := st.uploads ++ [(path, s3key bucket key)] }
  match err with
  | some e => (st1, some e)
  | none =>
      ({ st1 with console := st1.console ++
          [("[info] uploaded log to s3://") ++ bucket ++ ("/") ++ key] }, none)

/-- `upload_logs_if_needed` (main.py lines 58-73): in local mode return at once;
otherwise upload `/tmp/app.log` if it exists, then `/tmp/gurobi.log` if it
exists, each once, under timestamped keys; an exception aborts the rest. -/
def upload_logs_if_needed (st : JobState) (useS3 : Bool) (bucket job_id ts : String)
    (uploadErr : String → Option PyError) : JobState × Option PyError :=
  if useS3 = false then (st, none) else
  let app_key := job_id ++ ("/logs/app_") ++ ts ++ (".log")
  let grb_key := job_id ++ ("/logs/gurobi_") ++ ts ++ (".log")
  let s1 :=
    if st.appLog.isEmpty then (st, none)
    else attemptUpload st appLogPath bucket app_key (uploadErr appLogPath)
  match s1.2 with
  | some e => (s1.1, some e)
  | none =>
      if s1.1.grbLogFile = false then (s1.1, none)
      else
        let s2 := attemptUpload s1.1 grbLogPath bucket grb_key (uploadErr grbLogPath)
        (s2.1, s2.2)

def productsPath : String := "input/products.csv"

def capacitiesPath : String := "input/capacities.json"

def missingInputMsg : String := "Place files under input/: products.csv, capacities.json"

/-- `load_local_inputs` (main.py lines 14-21) over an abstract filesystem:
if either fixed input file is absent, raise `FileNotFoundError` with the fixed
message; else hand the file contents to the parsing collaborators
(`pd.read_csv` / `json.loads`). -/
def load_local_inputs (fs : String → Option String)
    (read_csv : String → List Product) (json_loads : String → CapMap) :
    Except PyError (List Product × CapMap) :=
  match fs productsPath, fs capacitiesPath with
  | some c1, some c2 => Except.ok (read_csv c1, json_loads c2)
  | some _, none => Except.error (PyError.fileNotFoundError missingInputMsg)
  | none, _ => Except.error (PyError.fileNotFoundError missingInputMsg)

/-- Names bound at module level in `main.py`: the imports of lines 2-6 and the
module-level definitions. `platform` is referenced (line 82) but never
imported, so it is absent here. -/
def mainModuleGlobals : List String :=
  [("argparse"), ("io"), ("json"), ("time"), ("sys"), ("traceback"), ("datetime"),
   ("Path"), ("pd"), ("gp"), ("GRB"),
   ("parse_args"), ("load_local_inputs"), ("load_s3_inputs"), ("write_s3_output"),
   ("_APP_LOG_PATH"), ("_GRB_LOG_PATH"), ("log"), ("upload_logs_if_needed"),
   ("log_startup"), ("init_gurobi_logging"), ("solve"), ("main")]

/-- The startup record `log_startup` emits when every referenced global
name resolves. -/
def startupRec (ts job_id : String) (useS3 : Bool)
    (pyVer grbVer platformStr : String) : LogRecord :=
  infoRec ts ("[info] startup")
    [(("job_id"), job_id), (("use_s3"), toString useS3),
     (("python"), pyVer), (("platform"), platformStr), (("gurobipy"), grbVer)]

/-- `log_startup` (main.py lines 77-84): reads `sys.version` and
`gp.__version__`, resolves `log`, then builds the payload dict, which
evaluates `platform.platform()` - a lookup of the global name `platform`.
An unresolvable global name raises `NameError` before any record is
emitted; only if all names resolve is the startup record logged. -/
def log_startup (env : List String) (st : JobState) (ts job_id : String)
    (useS3 : Bool) (pyVer grbVer platformStr : String) :
    Except PyError JobState :=
  if ("sys") ∈ env then
    if ("gp") ∈ env then
      if ("log") ∈ env then
        if ("platform") ∈ env then
          Except.ok (logRec st (startupRec ts job_id useS3 pyVer grbVer platformStr))
        else Except.error (PyError.nameError ("platform"))
      else Except.error (PyError.nameError ("log"))
    else Except.error (PyError.nameError ("gp"))
  else Except.error (PyError.nameError ("sys"))

/-- `init_gurobi_logging` (main.py lines 86-95): start (and dispose) an engine
environment with `LogFile=/tmp/gurobi.log` - a successful start writes the
solver log file - and log the result; its own failure is caught and logged
as a warning, never raised. Invoked by `main` (line 135) in both modes. -/
def init_gurobi_logging (st : JobState) (ts : String) (envStartOk : Bool)
    (envErrMsg : String) : JobState :=
  if envStartOk then
    let st1 := { st with grbLogFile := true }
    logRec st1 (infoRec ts ("[info] gurobi log initialized") [(("path"), grbLogPath)])
  else
    logRec st (infoRec ts ("[warn] gurobi log init failed") [(("error"), envErrMsg)])

/-- Rendering of the capacity map for the `start optimize` payload. -/
def capsRender (caps : CapMap) : String :=
  String.intercalate (",") (caps.map (fun kv => kv.1 ++ ("=") ++ ratStr kv.2))

/-- External-world parameters of one run of `main`. -/
structure MainParams where
  env : List String
  job_id : String
  bucket : Option String
  ts : String
  pyVer : String
  grbVer : String
  platformStr : String
  grbInitOk : Bool
  grbInitErr : String
  loadOutcome : Except PyError (List Product × CapMap)
  solver : SolverOutcome
  tb : String
  uploadErr : String → Option PyError

/-- The body of `main`'s `try:` block (lines 139-156): pacing log + sleep,
loading, solving, projection, display, conditional S3 write, success log.
Returns the first stage error, if any, unhandled. -/
def jobBody (st : JobState) (p : MainParams) (useS3 : Bool) :
    JobState × Except PyError Unit :=
  let st1 := logRec st (infoRec p.ts ("[info] sleeping") [(("seconds"), ("600"))])
  let st2 := pushStage st1 Stage.LOADING
  match p.loadOutcome with
  | Except.error e => (st2, Except.error e)
  | Except.ok pr =>
      let products := pr.1
      let caps := pr.2
      let st3 := pushStage st2 Stage.SOLVING
      let st4 :=
        if (0 : Nat) ≠ 0 then
          { st3 with solverConsole := st3.solverConsole ++ [("solver banner")] }
        else st3
      let st5 := if useS3 then { st4 with grbLogFile := true } else st4
      let st6 := logRec st5 (infoRec p.ts ("[info] start optimize")
        [(("n_var"), toString products.length), (("caps"), capsRender caps)])
      let st7 := logRec st6 (infoRec p.ts ("[info] optimize finished")
        [(("status"), toString p.solver.status)])
      match solveOutcome products p.solver with
      | Except.error e => (st7, Except.error e)
      | Except.ok res =>
          let obj := res.1
          let sol := res.2
          let st8 := pushStage st7 Stage.PROJECTING
          let st9 := logRec st8 (infoRec p.ts ("[info] objective") [(("value"), ratStr obj)])
          let st10 := logRec st9 (infoRec p.ts ("[info] solution_preview")
            [(("rows"), toString sol.length)])
          let st11 := { st10 with console := st10.console ++ [("Objective=") ++ ratStr obj] }
          let st12 := pushStage st11 Stage.WRITING
          let st13 :=
            if useS3 then writeS3Output st12 p.ts sol (p.bucket.getD ("")) p.job_id
            else st12
          let st14 := logRec st13 (infoRec p.ts ("[info] job success") [(("job_id"), p.job_id)])
          (pushStage st14 Stage.SUCCEEDED, Except.ok ())

/-- The short failure record (`log("[error] job failed", {"error": str(e)})`). -/
def failedRec (ts : String) (e : PyError) : LogRecord :=
  infoRec ts ("[error] job failed") [(("error"), errStr e)]

/-- The diagnostic-trace record (`log("[error] traceback", {"traceback": tb})`). -/
def tbRec (ts tb : String) : LogRecord :=
  infoRec ts ("[error] traceback") [(("traceback"), tb)]

/-- The `except Exception` handler of `main` (lines 157-161): two structured
records, the short message then the full diagnostic trace. -/
def exceptHandler (st : JobState) (ts tb : String) (e : PyError) : JobState :=
  logRec (logRec st (failedRec ts e)) (tbRec ts tb)

/-- The pending outcome of the `try`/`except` part, before `finally` runs. -/
def bodyPending (st : JobState) (p : MainParams) (useS3 : Bool) : Option PyError :=
  match (jobBody st p useS3).2 with
  | Except.ok _ => none
  | Except.error e => some e

/-- `main`'s `try`/`except`/`finally` (lines 138-165). Python semantics: the
handler logs twice and re-raises; the `finally` clause always runs
`upload_logs_if_needed`, and an exception raised there replaces whatever
exception was in flight. -/
def jobPhase (st : JobState) (p : MainParams) (useS3 : Bool) :
    JobState × Option PyError :=
  let b := jobBody st p useS3
  let st2 :=
    match b.2 with
    | Except.ok _ => b.1
    | Except.error e => pushStage (exceptHandler b.1 p.ts p.tb e) Stage.FAILED
  let u := upload_logs_if_needed st2 useS3 (p.bucket.getD ("")) p.job_id p.ts p.uploadErr
  (u.1, match u.2 with
        | some s => some s
        | none => bodyPending st p useS3)

/-- `main` after a successful `log_startup` (lines 135-165). -/
def mainAfterStartup (st : JobState) (p : MainParams) (useS3 : Bool) :
    JobState × Option PyError :=
  let st1 := init_gurobi_logging st p.ts p.grbInitOk p.grbInitErr
  let st2 := logRec st1 (infoRec p.ts ("[info] job start")
    [(("job_id"), p.job_id), (("use_s3"), toString useS3)])
  jobPhase st2 p useS3

/-- `main` (lines 129-165): mode selection by the trimmed bucket argument,
startup logging (outside the `try`, so a failure there is unhandled: no
handler logging, no log shipping), then the guarded job. -/
def runMain (p : MainParams) (st0 : JobState) : JobState × Option PyError :=
  let useS3 := !((p.bucket.getD ("")).trim.isEmpty)
  let st := pushStage st0 Stage.STARTING
  match log_startup p.env st p.ts p.job_id useS3 p.pyVer p.grbVer p.platformStr with
  | Except.error e => (st, some e)
  | Except.ok st1 => mainAfterStartup st1 p useS3

lemma lastMatch_eq_self (ps : List Product) (h : (ps.map Product.product).Nodup)
    (p : Product) (hp : p ∈ ps) : lastMatch ps p.product = some p := by
  induction ps with
  | nil => cases hp
  | cons q tl ih =>
      rw [List.map_cons, List.nodup_cons] at h
      rcases List.mem_cons.mp hp with rfl | hmem
      · have hnone : tl.reverse.find? (fun r => r.product == p.product) = none := by
          rw [List.find?_eq_none]
          intro x hx
          simp only [beq_iff_eq]
          intro hcontra
          exact h.1 (hcontra ▸ List.mem_map_of_mem Product.product (List.mem_reverse.mp hx))
        unfold lastMatch
        rw [List.reverse_cons, List.find?_append, hnone]
        simp
      · have htl := ih h.2 hmem
        unfold lastMatch at htl ⊢
        rw [List.reverse_cons, List.find?_append, htl]
        rfl

lemma lastProfit_eq (ps : List Product) (h : (ps.map Product.product).Nodup)
    (p : Product) (hp : p ∈ ps) : lastProfit ps p.product = p.profit := by
  unfold lastProfit
  rw [lastMatch_eq_self ps h p hp]
  rfl

/-- C1: for every product table and capacity map (with distinct product ids),
the built LP has exactly one continuous decision variable per product row with
lower bound zero and no upper bound, objective = maximize profit[i]*x[i]
summed over products, and its constraint count equals the cardinality of
the intersection of the recognized keys `resA`/`resB` with the capacity-map
keys: each recognized present key yields one `<=` constraint, and absent or
unrecognized keys yield no constraint and no error. -/
theorem model_builder_shape (ps : List Product) (caps : CapMap)
    (h : (ps.map Product.product).Nodup) :
    (buildLP ps caps).vars
        = ps.map (fun q => { name := q.product, lb := 0, ub := none }) ∧
    (buildLP ps caps).sense = Sense.maximize ∧
    (buildLP ps caps).objective = ps.map (fun q => (q.product, q.profit)) ∧
    (buildLP ps caps).constraints.length
        = (({("resA"), ("resB")} : Finset String) ∩ (caps.map Prod.fst).toFinset).card := by
  have mA : (("resA" : String) ∈ (caps.map Prod.fst).toFinset)
      ↔ (caps.lookup ("resA")).isSome = true := by
    rw [List.mem_toFinset]
    exact (lookup_isSome_iff caps _).symm
  have mB : (("resB" : String) ∈ (caps.map Prod.fst).toFinset)
      ↔ (caps.lookup ("resB")).isSome = true := by
    rw [List.mem_toFinset]
    exact (lookup_isSome_iff caps _).symm
  refine ⟨?_, rfl, ?_, ?_⟩
  · simp [buildLP, List.map_map]
  · simp only [buildLP, List.map_map]
    apply List.map_congr_left
    intro p hp
    simp only [Function.comp]
    rw [lastProfit_eq ps h p hp]
  · rw [pair_inter_card _ _ (by decide)]
    cases cA : caps.lookup ("resA") <;> cases cB : caps.lookup ("resB") <;>
      simp [buildLP, cA, cB, mA, mB]

def witnessProducts : List Product :=
  [{ product := ("A"), profit := 3, resA := 1, resB := 0 },
   { product := ("B"), profit := 5, resA := 0, resB := 2 }]

def witnessCaps : CapMap := [(("resA"), 10), (("resB"), 10)]

/-- C1 witness: the Model Builder shape theorem evaluated on the two-product
scenario of the spec with both capacities present. -/
theorem model_builder_shape_witness :
    (witnessProducts.map Product.product).Nodup ∧
    ((buildLP witnessProducts witnessCaps).vars
        = witnessProducts.map (fun q => { name := q.product, lb := 0, ub := none }) ∧
     (buildLP witnessProducts witnessCaps).sense = Sense.maximize ∧
     (buildLP witnessProducts witnessCaps).objective
        = witnessProducts.map (fun q => (q.product, q.profit)) ∧
     (buildLP witnessProducts witnessCaps).constraints.length
        = (({("resA"), ("resB")} : Finset String)
            ∩ (witnessCaps.map Prod.fst).toFinset).card) :=
  ⟨by decide, model_builder_shape witnessProducts witnessCaps (by decide)⟩

/-- C2: the solve step raises an error carrying the raw terminal status code
iff the terminal status is not `GRB.OPTIMAL`; on a non-optimal status nothing
is returned but that error, and on an optimal status the objective value is
returned together with a row holding the assigned value of every product's
variable. -/
theorem solve_error_iff_nonoptimal (ps : List Product) (out : SolverOutcome) :
    ((∃ e, solveOutcome ps out = Except.error e) ↔ out.status ≠ GRB_OPTIMAL) ∧
    (∀ e, solveOutcome ps out = Except.error e →
        e = PyError.runtimeError (("status=") ++ toString out.status)) ∧
    ((∃ v, solveOutcome ps out = Except.ok v) ↔ out.status = GRB_OPTIMAL) ∧
    (out.status = GRB_OPTIMAL →
        solveOutcome ps out = Except.ok (out.objVal, projectSolution ps out.xval) ∧
        ∀ p ∈ ps, ∃ r ∈ projectSolution ps out.xval,
          r.product = p.product ∧ r.quantity = out.xval p.product ∧
          r.profit_contrib = lastProfit ps p.product * out.xval p.product) := by
  by_cases hs : out.status = GRB_OPTIMAL
  · have hn : ¬ out.status ≠ GRB_OPTIMAL := by simpa using hs
    refine ⟨?_, ?_, ?_, fun _ => ⟨?_, ?_⟩⟩
    · simp [solveOutcome, if_neg hn, hs]
    · intro e he
      simp [solveOutcome, if_neg hn] at he
    · simp [solveOutcome, if_neg hn, hs]
    · simp [solveOutcome, if_neg hn]
    · intro p hp
      refine ⟨{ product := p.product, quantity := out.xval p.product,
                profit_contrib := lastProfit ps p.product * out.xval p.product },
              ?_, rfl, rfl, rfl⟩
      exact List.mem_map_of_mem _ (List.mem_map_of_mem Product.product hp)
  · refine ⟨?_, ?_, ?_, fun hopt => absurd hopt hs⟩
    · simp [solveOutcome, if_pos hs, hs]
    · intro e he
      simp only [solveOutcome, if_pos hs, Except.error.injEq] at he
      exact he.symm
    · simp [solveOutcome, if_pos hs, hs]

def witnessSolverBad : SolverOutcome :=
  { status := 3, objVal := 0, xval := fun _ => 0 }

/-- C2 witness: the status theorem at the two-product table with an
infeasible (status 3) terminal report. -/
theorem solve_error_iff_nonoptimal_witness :
    ((∃ e, solveOutcome witnessProducts witnessSolverBad = Except.error e)
        ↔ witnessSolverBad.status ≠ GRB_OPTIMAL) ∧
    (∀ e, solveOutcome witnessProducts witnessSolverBad = Except.error e →
        e = PyError.runtimeError (("status=") ++ toString witnessSolverBad.status)) ∧
    ((∃ v, solveOutcome witnessProducts witnessSolverBad = Except.ok v)
        ↔ witnessSolverBad.status = GRB_OPTIMAL) ∧
    (witnessSolverBad.status = GRB_OPTIMAL →
        solveOutcome witnessProducts witnessSolverBad
          = Except.ok (witnessSolverBad.objVal,
              projectSolution witnessProducts witnessSolverBad.xval) ∧
        ∀ p ∈ witnessProducts,
          ∃ r ∈ projectSolution witnessProducts witnessSolverBad.xval,
            r.product = p.product ∧ r.quantity = witnessSolverBad.xval p.product ∧
            r.profit_contrib
              = lastProfit witnessProducts p.product * witnessSolverBad.xval p.product) :=
  solve_error_iff_nonoptimal witnessProducts witnessSolverBad

lemma projectSolution_eq (ps : List Product) (xval : String → ℚ)
    (h : (ps.map Product.product).Nodup) :
    projectSolution ps xval
      = ps.map (fun p => { product := p.product, quantity := xval p.product,
                           profit_contrib := p.profit * xval p.product }) := by
  simp only [projectSolution, List.map_map]
  apply List.map_congr_left
  intro p hp
  simp only [Function.comp]
  rw [lastProfit_eq ps h p hp]

/-- C8: on solver success the produced Solution has exactly one row per
product, in the order of the input product list, whose quantity is the
solver's assigned value for that product's variable and whose profit_contrib
is profit[product] * quantity (exact in the rational model). -/
theorem solution_rows_match_products (ps : List Product) (out : SolverOutcome)
    (obj : ℚ) (rows : List SolRow)
    (hok : solveOutcome ps out = Except.ok (obj, rows))
    (h : (ps.map Product.product).Nodup) :
    rows = ps.map (fun p => { product := p.product, quantity := out.xval p.product,
                              profit_contrib := p.profit * out.xval p.product }) := by
  by_cases hs : out.status = GRB_OPTIMAL
  · have hn : ¬ out.status ≠ GRB_OPTIMAL := by simpa using hs
    simp only [solveOutcome, if_neg hn, Except.ok.injEq, Prod.mk.injEq] at hok
    rw [← hok.2]
    exact projectSolution_eq ps out.xval h
  · simp [solveOutcome, if_pos hs] at hok

def witnessOptimal : SolverOutcome :=
  { status := GRB_OPTIMAL, objVal := 55,
    xval := fun n => if n = ("A") then 10 else if n = ("B") then 5 else 0 }

def witnessRows : List SolRow :=
  [{ product := ("A"), quantity := 10, profit_contrib := 3 * 10 },
   { product := ("B"), quantity := 5, profit_contrib := 5 * 5 }]

/-- C8 witness: on the spec's scenario (optimal, x_A=10, x_B=5) the produced
rows are exactly the per-product rows with profit_contrib = profit*quantity. -/
theorem solution_rows_match_products_witness :
    witnessRows = witnessProducts.map
      (fun p => { product := p.product, quantity := witnessOptimal.xval p.product,
                  profit_contrib := p.profit * witnessOptimal.xval p.product }) :=
  solution_rows_match_products witnessProducts witnessOptimal 55 witnessRows rfl (by decide)

/-- C9: in local mode, if either fixed input file is absent the loader raises
an error whose message names both expected input files, and no data is
returned; when both are present it returns the parsed product table and
capacity map. -/
theorem local_inputs_missing_error (fs : String → Option String)
    (read_csv : String → List Product) (json_loads : String → CapMap) :
    ((fs productsPath = none ∨ fs capacitiesPath = none) →
        load_local_inputs fs read_csv json_loads
          = Except.error (PyError.fileNotFoundError missingInputMsg) ∧
        (¬ ∃ v, load_local_inputs fs read_csv json_loads = Except.ok v) ∧
        (("products.csv").data <:+: missingInputMsg.data) ∧
        (("capacities.json").data <:+: missingInputMsg.data)) ∧
    (∀ c1 c2, fs productsPath = some c1 → fs capacitiesPath = some c2 →
        load_local_inputs fs read_csv json_loads
          = Except.ok (read_csv c1, json_loads c2)) := by
  constructor
  · intro hmiss
    have herr : load_local_inputs fs read_csv json_loads
        = Except.error (PyError.fileNotFoundError missingInputMsg) := by
      unfold load_local_inputs
      rcases hp : fs productsPath with _ | c1
      · rfl
      · rcases hc : fs capacitiesPath with _ | c2
        · rfl
        · rcases hmiss with h | h
          · rw [hp] at h
            exact Option.noConfusion h
          · rw [hc] at h
            exact Option.noConfusion h
    refine ⟨herr, ?_, by decide, by decide⟩
    rintro ⟨v, hv⟩
    rw [herr] at hv
    exact Except.noConfusion hv
  · intro c1 c2 h1 h2
    unfold load_local_inputs
    rw [h1, h2]

def witnessFs : String → Option String := fun _ => none

def witnessReadCsv : String → List Product := fun _ => []

def witnessJsonLoads : String → CapMap := fun _ => []

/-- C9 witness: the loader contract evaluated on an empty filesystem, where
both inputs are absent. -/
theorem local_inputs_missing_error_witness :
    ((witnessFs productsPath = none ∨ witnessFs capacitiesPath = none) →
        load_local_inputs witnessFs witnessReadCsv witnessJsonLoads
          = Except.error (PyError.fileNotFoundError missingInputMsg) ∧
        (¬ ∃ v, load_local_inputs witnessFs witnessReadCsv witnessJsonLoads = Except.ok v) ∧
        (("products.csv").data <:+: missingInputMsg.data) ∧
        (("capacities.json").data <:+: missingInputMsg.data)) ∧
    (∀ c1 c2, witnessFs productsPath = some c1 → witnessFs capacitiesPath = some c2 →
        load_local_inputs witnessFs witnessReadCsv witnessJsonLoads
          = Except.ok (witnessReadCsv c1, witnessJsonLoads c2)) :=
  local_inputs_missing_error witnessFs witnessReadCsv witnessJsonLoads

lemma filter_drop_then_keep (s : List (String × String)) (k : String) :
    (s.filter (fun kv => !(kv.1 == k))).filter (fun kv => kv.1 == k) = [] := by
  induction s with
  | nil => rfl
  | cons a l ih =>
      cases hak : (a.1 == k) with
      | true => simp [List.filter_cons, hak, ih]
      | false => simp [List.filter_cons, hak, ih]

lemma filter_drop_idem (s : List (String × String)) (k : String) :
    (s.filter (fun kv => !(kv.1 == k))).filter (fun kv => !(kv.1 == k))
      = s.filter (fun kv => !(kv.1 == k)) := by
  induction s with
  | nil => rfl
  | cons a l ih =>
      cases hak : (a.1 == k) with
      | true => simp [List.filter_cons, hak, ih]
      | false => simp [List.filter_cons, hak, ih]

lemma s3put_idem (s : List (String × String)) (k c : String) :
    s3put (s3put s k c) k c = s3put s k c := by
  unfold s3put
  rw [List.filter_append, filter_drop_idem]
  simp

lemma countKey_s3put (s : List (String × String)) (k c : String) :
    countKey (s3put s k c) k = 1 := by
  unfold countKey s3put
  rw [List.filter_append, filter_drop_then_keep]
  simp

/-- C7: the output sink persists nothing in local mode (no object, no file,
and no error), while in remote mode it stores the CSV serialization of the
Solution - whose first line is the header product,quantity,profit_contrib -
at the deterministic key {job_id}/output/solution.csv under the bucket;
running the sink twice with the same Solution and Job Context targets the
same key and overwrites rather than creating a second object. -/
theorem output_sink_policy (st : JobState) (ts : String) (sol : List SolRow)
    (bucket job_id : String) :
    (outputSink st ts false sol bucket job_id = st) ∧
    ((outputSink st ts true sol bucket job_id).s3
        = s3put st.s3 (s3key bucket (job_id ++ ("/output/solution.csv")))
            (solutionToCsv sol)) ∧
    (∃ rows, solutionToCsv sol = ("product,quantity,profit_contrib\n") ++ rows) ∧
    ((outputSink (outputSink st ts true sol bucket job_id) ts true sol bucket job_id).s3
        = (outputSink st ts true sol bucket job_id).s3) ∧
    (countKey (outputSink st ts true sol bucket job_id).s3
        (s3key bucket (job_id ++ ("/output/solution.csv"))) = 1) := by
  refine ⟨rfl, rfl, ⟨String.join (sol.map csvRow), rfl⟩, ?_, ?_⟩
  · show s3put (s3put st.s3 _ _) _ _ = s3put st.s3 _ _
    exact s3put_idem st.s3 _ _
  · exact countKey_s3put st.s3 _ _

lemma attemptsFor_append_one (l : List (String × String)) (x : String × String)
    (k : String) :
    attemptsFor (l ++ [x]) k = attemptsFor l k + (if x.1 == k then 1 else 0) := by
  unfold attemptsFor
  rw [List.filter_append]
  cases h : (x.1 == k) <;> simp [h]

lemma upload_local (st : JobState) (b j t : String) (f : String → Option PyError) :
    upload_logs_if_needed st false b j t f = (st, none) := rfl

lemma upload_appLog (st : JobState) (useS3 : Bool) (b j t : String)
    (f : String → Option PyError) :
    (upload_logs_if_needed st useS3 b j t f).1.appLog = st.appLog := by
  unfold upload_logs_if_needed attemptUpload
  cases useS3
  · rfl
  · cases st.appLog.isEmpty <;> cases hf1 : f appLogPath <;>
      simp [hf1] <;> split <;> cases hf2 : f grbLogPath <;> simp [hf2]

lemma attemptsFor_append (l l2 : List (String × String)) (k : String) :
    attemptsFor (l ++ l2) k = attemptsFor l k + attemptsFor l2 k := by
  unfold attemptsFor
  rw [List.filter_append, List.length_append]

lemma upload_remote_attempts (st : JobState) (b j t : String)
    (f : String → Option PyError) (hne : st.appLog.isEmpty = false) :
    attemptsFor (upload_logs_if_needed st true b j t f).1.uploads appLogPath
      = attemptsFor st.uploads appLogPath + 1 ∧
    attemptsFor (upload_logs_if_needed st true b j t f).1.uploads grbLogPath
      ≤ attemptsFor st.uploads grbLogPath + 1 := by
  have hAA : ((appLogPath == appLogPath) = true) := by decide
  have hGA : ((grbLogPath == appLogPath) = false) := by decide
  have hAG : ((appLogPath == grbLogPath) = false) := by decide
  have hGG : ((grbLogPath == grbLogPath) = true) := by decide
  have dAG : appLogPath ≠ grbLogPath := by decide
  have dGA : grbLogPath ≠ appLogPath := by decide
  unfold upload_logs_if_needed attemptUpload
  cases hf1 : f appLogPath with
  | some e =>
      simp [hne, hf1, attemptsFor_append, attemptsFor, hAA, hGA, hAG, hGG, dAG, dGA]
  | none =>
      cases hg : st.grbLogFile with
      | false =>
          simp [hne, hf1, hg, attemptsFor_append, attemptsFor, hAA, hGA, hAG, hGG, dAG, dGA]
      | true =>
          cases hf2 : f grbLogPath <;>
            simp [hne, hf1, hg, hf2, attemptsFor_append, attemptsFor, hAA, hGA, hAG, hGG,
              dAG, dGA]

lemma upload_noerr (st : JobState) (useS3 : Bool) (b j t : String)
    (f : String → Option PyError) (hf : ∀ q, f q = none) :
    (upload_logs_if_needed st useS3 b j t f).2 = none := by
  unfold upload_logs_if_needed attemptUpload
  cases useS3 with
  | false => rfl
  | true =>
      cases he : st.appLog.isEmpty <;>
        cases hg : st.grbLogFile <;>
          simp [he, hg, hf appLogPath, hf grbLogPath]

lemma upload_remote_appfail (st : JobState) (b j t : String)
    (f : String → Option PyError) (s : PyError)
    (hne : st.appLog.isEmpty = false) (hf : f appLogPath = some s) :
    (upload_logs_if_needed st true b j t f).2 = some s := by
  unfold upload_logs_if_needed attemptUpload
  simp [hne, hf]

lemma upload_uploads_sub (st : JobState) (useS3 : Bool) (b j t : String)
    (f : String → Option PyError) :
    ∃ l, (upload_logs_if_needed st useS3 b j t f).1.uploads = st.uploads ++ l := by
  unfold upload_logs_if_needed attemptUpload
  cases useS3 with
  | false => exact ⟨[], by simp⟩
  | true =>
      cases he : st.appLog.isEmpty <;> cases hg : st.grbLogFile <;>
        cases hf1 : f appLogPath <;> cases hf2 : f grbLogPath <;>
          simp [he, hg, hf1, hf2]

lemma jobBody_uploads (st : JobState) (p : MainParams) (u : Bool) :
    (jobBody st p u).1.uploads = st.uploads := by
  cases hl : p.loadOutcome with
  | error e => simp [jobBody, hl, logRec, pushStage]
  | ok pr =>
      cases hs : solveOutcome pr.1 p.solver with
      | error e2 => cases u <;> simp [jobBody, hl, hs, logRec, pushStage]
      | ok res =>
          cases u <;>
            simp [jobBody, hl, hs, logRec, pushStage, writeS3Output]

lemma jobBody_appLog (st : JobState) (p : MainParams) (u : Bool) :
    ∃ l, (jobBody st p u).1.appLog
      = st.appLog ++ (infoRec p.ts ("[info] sleeping") [(("seconds"), ("600"))]) :: l := by
  cases hl : p.loadOutcome with
  | error e => exact ⟨[], by simp [jobBody, hl, logRec, pushStage]⟩
  | ok pr =>
      cases hs : solveOutcome pr.1 p.solver with
      | error e2 =>
          cases u <;> simp [jobBody, hl, hs, logRec, pushStage]
      | ok res =>
          cases u <;> simp [jobBody, hl, hs, logRec, pushStage, writeS3Output]

lemma jobBody_appLog_ne (st : JobState) (p : MainParams) (u : Bool) :
    ((jobBody st p u).1.appLog).isEmpty = false := by
  obtain ⟨l, hl⟩ := jobBody_appLog st p u
  rw [hl]
  cases st.appLog <;> rfl

lemma handlerState_appLog (st : JobState) (ts tb : String) (e : PyError) :
    (pushStage (exceptHandler st ts tb e) Stage.FAILED).appLog
      = st.appLog ++ [failedRec ts e, tbRec ts tb] := by
  simp [pushStage, exceptHandler, logRec]

lemma handlerState_uploads (st : JobState) (ts tb : String) (e : PyError) :
    (pushStage (exceptHandler st ts tb e) Stage.FAILED).uploads = st.uploads := rfl

lemma append_cons_ne (l1 : List LogRecord) (r : LogRecord) (l2 : List LogRecord) :
    (l1 ++ r :: l2).isEmpty = false := by
  cases l1 <;> rfl

lemma jobPhase_state (st : JobState) (p : MainParams) (u : Bool) :
    ((jobPhase st p u).1.appLog).isEmpty = false ∧
    (∃ l, (jobPhase st p u).1.uploads = st.uploads ++ l) := by
  simp only [jobPhase]
  cases hb : (jobBody st p u).2 with
  | ok v =>
      simp only [hb]
      constructor
      · rw [upload_appLog]
        exact jobBody_appLog_ne st p u
      · obtain ⟨l, hl⟩ := upload_uploads_sub (jobBody st p u).1 u (p.bucket.getD (""))
          p.job_id p.ts p.uploadErr
        refine ⟨l, ?_⟩
        rw [hl, jobBody_uploads]
  | error e =>
      simp only [hb]
      constructor
      · rw [upload_appLog, handlerState_appLog]
        exact append_cons_ne _ _ _
      · obtain ⟨l, hl⟩ := upload_uploads_sub
          (pushStage (exceptHandler (jobBody st p u).1 p.ts p.tb e) Stage.FAILED)
          u (p.bucket.getD ("")) p.job_id p.ts p.uploadErr
        refine ⟨l, ?_⟩
        rw [hl, handlerState_uploads, jobBody_uploads]

/-- C5: every stage error is logged, before propagation, as exactly two
separate structured records - the short error message, then the full
diagnostic trace - and the job's outcome is then a failure (no stage error is
ever silently swallowed); when the shipping step itself does not fail, the
propagated exception is exactly the original one, re-raised. -/
theorem stage_error_logged_twice_and_reraised (st : JobState) (p : MainParams)
    (useS3 : Bool) (e : PyError)
    (h : (jobBody st p useS3).2 = Except.error e) :
    ((jobPhase st p useS3).1.appLog
        = (jobBody st p useS3).1.appLog ++ [failedRec p.ts e, tbRec p.ts p.tb]) ∧
    ((jobPhase st p useS3).2 ≠ none) ∧
    ((∀ q, p.uploadErr q = none) → (jobPhase st p useS3).2 = some e) := by
  have hpend : bodyPending st p useS3 = some e := by
    unfold bodyPending
    rw [h]
  simp only [jobPhase, h]
  refine ⟨?_, ?_, ?_⟩
  · rw [upload_appLog, handlerState_appLog]
  · cases hu : (upload_logs_if_needed
        (pushStage (exceptHandler (jobBody st p useS3).1 p.ts p.tb e) Stage.FAILED)
        useS3 (p.bucket.getD ("")) p.job_id p.ts p.uploadErr).2 with
    | some s => simp [hu]
    | none => simp [hu, hpend]
  · intro hup
    rw [upload_noerr (pushStage (exceptHandler (jobBody st p useS3).1 p.ts p.tb e)
      Stage.FAILED) useS3 (p.bucket.getD ("")) p.job_id p.ts p.uploadErr hup]
    exact hpend

def failParams : MainParams :=
  { env := mainModuleGlobals, job_id := ("job1"), bucket := some ("bucket1"),
    ts := ("20260101T000000Z"), pyVer := ("3.11.0"), grbVer := ("11.0.0"),
    platformStr := ("linux"), grbInitOk := true, grbInitErr := (""),
    loadOutcome := Except.error (PyError.other ("load failed")),
    solver := { status := 2, objVal := 0, xval := fun _ => 0 },
    tb := ("Traceback (most recent call last)"), uploadErr := fun _ => none }

/-- C5 witness: the failure-logging theorem evaluated on a remote-mode run
whose loading stage raises. -/
theorem stage_error_logged_twice_and_reraised_witness :
    ((jobPhase initialState failParams true).1.appLog
        = (jobBody initialState failParams true).1.appLog
            ++ [failedRec failParams.ts (PyError.other ("load failed")),
                tbRec failParams.ts failParams.tb]) ∧
    ((jobPhase initialState failParams true).2 ≠ none) ∧
    ((∀ q, failParams.uploadErr q = none) →
        (jobPhase initialState failParams true).2 = some (PyError.other ("load failed"))) :=
  stage_error_logged_twice_and_reraised initialState failParams true
    (PyError.other ("load failed")) rfl

/-- C3 (amended): log shipping runs on every exit path of the guarded job
body - success and failure alike. In local mode no upload is ever attempted
and the body's outcome propagates unchanged. In remote mode the application
log is uploaded exactly once and the solver log at most once (only if it
exists; never retried); if shipping itself raises no error the body's outcome
propagates, but if the application-log upload raises, that shipping exception
is what propagates, replacing the job's original outcome. -/
theorem log_shipping_policy (st : JobState) (p : MainParams) :
    ((jobPhase st p false).1.uploads = st.uploads) ∧
    ((jobPhase st p false).2 = bodyPending st p false) ∧
    (attemptsFor (jobPhase st p true).1.uploads appLogPath
        = attemptsFor st.uploads appLogPath + 1) ∧
    (attemptsFor (jobPhase st p true).1.uploads grbLogPath
        ≤ attemptsFor st.uploads grbLogPath + 1) ∧
    ((∀ q, p.uploadErr q = none) → (jobPhase st p true).2 = bodyPending st p true) ∧
    (∀ s, p.uploadErr appLogPath = some s → (jobPhase st p true).2 = some s) := by
  refine ⟨?_, ?_, ?_, ?_, ?_, ?_⟩
  · simp only [jobPhase]
    cases hb : (jobBody st p false).2 with
    | ok v =>
        simp only [hb]
        rw [upload_local]
        exact jobBody_uploads st p false
    | error e =>
        simp only [hb]
        rw [upload_local, handlerState_uploads]
        exact jobBody_uploads st p false
  · simp only [jobPhase]
    cases hb : (jobBody st p false).2 with
    | ok v =>
        simp only [hb]
        rw [upload_local]
    | error e =>
        simp only [hb]
        rw [upload_local]
  · simp only [jobPhase]
    cases hb : (jobBody st p true).2 with
    | ok v =>
        simp only [hb]
        rw [(upload_remote_attempts (jobBody st p true).1 (p.bucket.getD (""))
          p.job_id p.ts p.uploadErr (jobBody_appLog_ne st p true)).1]
        rw [jobBody_uploads]
    | error e =>
        simp only [hb]
        have hne : ((pushStage (exceptHandler (jobBody st p true).1 p.ts p.tb e)
            Stage.FAILED).appLog).isEmpty = false := by
          rw [handlerState_appLog]
          exact append_cons_ne _ _ _
        rw [(upload_remote_attempts _ (p.bucket.getD ("")) p.job_id p.ts p.uploadErr hne).1]
        rw [handlerState_uploads, jobBody_uploads]
  · simp only [jobPhase]
    cases hb : (jobBody st p true).2 with
    | ok v =>
        simp only [hb]
        have h2 := (upload_remote_attempts (jobBody st p true).1 (p.bucket.getD (""))
          p.job_id p.ts p.uploadErr (jobBody_appLog_ne st p true)).2
        rw [jobBody_uploads] at h2
        exact h2
    | error e =>
        simp only [hb]
        have hne : ((pushStage (exceptHandler (jobBody st p true).1 p.ts p.tb e)
            Stage.FAILED).appLog).isEmpty = false := by
          rw [handlerState_appLog]
          exact append_cons_ne _ _ _
        have h2 := (upload_remote_attempts _ (p.bucket.getD (""))
          p.job_id p.ts p.uploadErr hne).2
        rw [handlerState_uploads, jobBody_uploads] at h2
        exact h2
  · intro hup
    simp only [jobPhase]
    cases hb : (jobBody st p true).2 with
    | ok v =>
        simp only [hb]
        rw [upload_noerr (jobBody st p true).1 true (p.bucket.getD (""))
          p.job_id p.ts p.uploadErr hup]
    | error e =>
        simp only [hb]
        rw [upload_noerr (pushStage (exceptHandler (jobBody st p true).1 p.ts p.tb e)
          Stage.FAILED) true (p.bucket.getD ("")) p.job_id p.ts p.uploadErr hup]
  · intro s hs
    simp only [jobPhase]
    cases hb : (jobBody st p true).2 with
    | ok v =>
        simp only [hb]
        rw [upload_remote_appfail (jobBody st p true).1 (p.bucket.getD (""))
          p.job_id p.ts p.uploadErr s (jobBody_appLog_ne st p true) hs]
    | error e =>
        simp only [hb]
        have hne : ((pushStage (exceptHandler (jobBody st p true).1 p.ts p.tb e)
            Stage.FAILED).appLog).isEmpty = false := by
          rw [handlerState_appLog]
          exact append_cons_ne _ _ _
        rw [upload_remote_appfail _ (p.bucket.getD ("")) p.job_id p.ts p.uploadErr s hne hs]

/-- C3 witness: the shipping-policy theorem evaluated on the remote-mode
failing-load run starting from the empty world. -/
theorem log_shipping_policy_witness :
    ((jobPhase initialState failParams false).1.uploads = initialState.uploads) ∧
    ((jobPhase initialState failParams false).2 = bodyPending initialState failParams false) ∧
    (attemptsFor (jobPhase initialState failParams true).1.uploads appLogPath
        = attemptsFor initialState.uploads appLogPath + 1) ∧
    (attemptsFor (jobPhase initialState failParams true).1.uploads grbLogPath
        ≤ attemptsFor initialState.uploads grbLogPath + 1) ∧
    ((∀ q, failParams.uploadErr q = none) →
        (jobPhase initialState failParams true).2 = bodyPending initialState failParams true) ∧
    (∀ s, failParams.uploadErr appLogPath = some s →
        (jobPhase initialState failParams true).2 = some s) :=
  log_shipping_policy initialState failParams

def maskParams : MainParams :=
  { env := mainModuleGlobals, job_id := ("job1"), bucket := some ("bucket1"),
    ts := ("20260101T000000Z"), pyVer := ("3.11.0"), grbVer := ("11.0.0"),
    platformStr := ("linux"), grbInitOk := true, grbInitErr := (""),
    loadOutcome := Except.error (PyError.other ("load failed")),
    solver := { status := 2, objVal := 0, xval := fun _ => 0 },
    tb := ("Traceback (most recent call last)"),
    uploadErr := fun _ => some (PyError.other ("upload failed")) }

/-- C3 counterexample: a remote-mode job whose loading stage raises and whose
log upload also raises propagates the shipping exception, not the job's
original exception - the shipping failure masks the job's original outcome. -/
theorem shipping_failure_masks_original_error :
    (jobBody initialState maskParams true).2
        = Except.error (PyError.other ("load failed")) ∧
    (jobPhase initialState maskParams true).2
        = some (PyError.other ("upload failed")) ∧
    some (PyError.other ("upload failed")) ≠ some (PyError.other ("load failed")) := by
  refine ⟨rfl, rfl, by decide⟩

/-- C6 (amended): the solve step itself suppresses all solver console output
in both modes and redirects the solver's diagnostic log to the durable log
file only in remote mode (in local mode `solve` leaves the solver log file
alone); but the unconditional gurobi-logging initialization performed at
startup in both modes creates the solver log file whenever the engine
environment starts successfully, so local mode is not free of a solver log
file. -/
theorem solver_diagnostics_policy (st : JobState) (p : MainParams)
    (x : List Product × CapMap) (hload : p.loadOutcome = Except.ok x) :
    ((jobBody st p false).1.grbLogFile = st.grbLogFile) ∧
    ((jobBody st p false).1.solverConsole = st.solverConsole) ∧
    ((jobBody st p true).1.solverConsole = st.solverConsole) ∧
    ((jobBody st p true).1.grbLogFile = true) ∧
    (∀ ts msg, (init_gurobi_logging st ts true msg).grbLogFile = true) := by
  refine ⟨?_, ?_, ?_, ?_, fun ts msg => rfl⟩
  · cases hl : p.loadOutcome with
    | error e => simp [jobBody, hl, logRec, pushStage]
    | ok pr =>
        cases hs : solveOutcome pr.1 p.solver <;>
          simp [jobBody, hl, hs, logRec, pushStage, writeS3Output]
  · cases hl : p.loadOutcome with
    | error e => simp [jobBody, hl, logRec, pushStage]
    | ok pr =>
        cases hs : solveOutcome pr.1 p.solver <;>
          simp [jobBody, hl, hs, logRec, pushStage, writeS3Output]
  · cases hl : p.loadOutcome with
    | error e => simp [jobBody, hl, logRec, pushStage]
    | ok pr =>
        cases hs : solveOutcome pr.1 p.solver <;>
          simp [jobBody, hl, hs, logRec, pushStage, writeS3Output]
  · cases hs : solveOutcome x.1 p.solver <;>
      simp [jobBody, hload, hs, logRec, pushStage, writeS3Output]

def localParams : MainParams :=
  { env := mainModuleGlobals, job_id := ("job1"), bucket := none,
    ts := ("20260101T000000Z"), pyVer := ("3.11.0"), grbVer := ("11.0.0"),
    platformStr := ("linux"), grbInitOk := true, grbInitErr := (""),
    loadOutcome := Except.ok ([], []),
    solver := { status := 2, objVal := 0, xval := fun _ => 0 },
    tb := ("Traceback (most recent call last)"), uploadErr := fun _ => none }

/-- C6 witness: the solver-diagnostics theorem evaluated on a local-mode run
with an empty product table. -/
theorem solver_diagnostics_policy_witness :
    ((jobBody initialState localParams false).1.grbLogFile
        = initialState.grbLogFile) ∧
    ((jobBody initialState localParams false).1.solverConsole
        = initialState.solverConsole) ∧
    ((jobBody initialState localParams true).1.solverConsole
        = initialState.solverConsole) ∧
    ((jobBody initialState localParams true).1.grbLogFile = true) ∧
    (∀ ts msg, (init_gurobi_logging initialState ts true msg).grbLogFile = true) :=
  solver_diagnostics_policy initialState localParams ([], []) rfl

/-- C6 counterexample: `main` (line 135) runs `init_gurobi_logging` in both
modes; in a local-mode job whose engine environment starts successfully, the
solver log file is created, refuting that local mode produces no solver log
file at all. -/
theorem local_mode_solver_log_file_created :
    initialState.grbLogFile = false ∧
    (mainAfterStartup initialState localParams false).1.grbLogFile = true :=
  ⟨rfl, rfl⟩

/-- C4 is violated by the code: `log_startup` (line 82) evaluates
`platform.platform()` but the module never imports `platform`, so every
invocation raises `NameError` before the startup record is written; the job
never reaches the loading stage, emits no startup record, and the `NameError`
propagates unhandled. -/
theorem startup_platform_undefined_blocks_loading :
    (("platform") ∉ mainModuleGlobals) ∧
    (runMain localParams initialState).2 = some (PyError.nameError ("platform")) ∧
    (Stage.LOADING ∉ (runMain localParams initialState).1.stages) ∧
    (∀ r ∈ (runMain localParams initialState).1.appLog, r.msg ≠ ("[info] startup")) := by
  refine ⟨by decide, rfl, by decide, by decide⟩

lemma logRec_appLog (st : JobState) (r : LogRecord) :
    (logRec st r).appLog = st.appLog ++ [r] := rfl

lemma jobPhase_appLog (st : JobState) (p : MainParams) (u : Bool) :
    ∃ l, (jobPhase st p u).1.appLog = st.appLog ++ l := by
  simp only [jobPhase]
  cases hb : (jobBody st p u).2 with
  | ok v =>
      simp only [hb]
      obtain ⟨l, hl⟩ := jobBody_appLog st p u
      refine ⟨(infoRec p.ts ("[info] sleeping") [(("seconds"), ("600"))]) :: l, ?_⟩
      rw [upload_appLog, hl]
  | error e =>
      simp only [hb]
      obtain ⟨l, hl⟩ := jobBody_appLog st p u
      refine ⟨(infoRec p.ts ("[info] sleeping") [(("seconds"), ("600"))])
        :: (l ++ [failedRec p.ts e, tbRec p.ts p.tb]), ?_⟩
      rw [upload_appLog, handlerState_appLog, hl, List.append_assoc]
      rfl

lemma mainAfterStartup_appLog (st : JobState) (p : MainParams) (u : Bool) :
    ∃ l, (mainAfterStartup st p u).1.appLog = st.appLog ++ l := by
  simp only [mainAfterStartup]
  obtain ⟨l, hl⟩ := jobPhase_appLog
    (logRec (init_gurobi_logging st p.ts p.grbInitOk p.grbInitErr)
      (infoRec p.ts ("[info] job start")
        [(("job_id"), p.job_id), (("use_s3"), toString u)])) p u
  have hinit : ∃ r, (init_gurobi_logging st p.ts p.grbInitOk p.grbInitErr).appLog
      = st.appLog ++ [r] := by
    cases hg : p.grbInitOk <;> exact ⟨_, rfl⟩
  obtain ⟨r, hr⟩ := hinit
  refine ⟨r :: (infoRec p.ts ("[info] job start")
      [(("job_id"), p.job_id), (("use_s3"), toString u)]) :: l, ?_⟩
  rw [hl, logRec_appLog, hr, List.append_assoc, List.append_assoc]
  rfl

lemma log_startup_ok (env : List String) (st : JobState) (ts j : String)
    (u : Bool) (pv gv pf : String) (st2 : JobState)
    (h : log_startup env st ts j u pv gv pf = Except.ok st2) :
    st2.appLog = st.appLog ++ [startupRec ts j u pv gv pf] := by
  by_cases h1 : ("sys") ∈ env <;> by_cases h2 : ("gp") ∈ env <;>
    by_cases h3 : ("log") ∈ env <;> by_cases h4 : ("platform") ∈ env <;>
      (simp [log_startup, h1, h2, h3, h4] at h
       all_goals (subst h; rfl))

/-- C10: every call of the log operation appends exactly one record to the
application log (mirrored to the console as one rendered line that starts
with the timestamp and message and carries the optional payload), and a whole
run of `main` only ever appends to the application log - whatever the log
file held before the run is still a prefix of it on every exit path, so
previously appended records survive to the upload step. -/
theorem app_log_append_only (st : JobState) (r : LogRecord) (p : MainParams)
    (st0 : JobState) :
    ((logRec st r).appLog = st.appLog ++ [r]) ∧
    ((logRec st r).console = st.console ++ [renderLine r]) ∧
    (r.payload = none → renderLine r = r.ts ++ (" ") ++ r.msg) ∧
    (∀ kvs, r.payload = some kvs →
        renderLine r = r.ts ++ (" ") ++ r.msg ++ (" ") ++ renderPayload kvs) ∧
    (st0.appLog <+: (runMain p st0).1.appLog) := by
  refine ⟨rfl, rfl, ?_, ?_, ?_⟩
  · intro h
    simp [renderLine, h]
  · intro kvs h
    simp [renderLine, h]
  · cases hls : log_startup p.env (pushStage st0 Stage.STARTING) p.ts p.job_id
        (!((p.bucket.getD ("")).trim.isEmpty)) p.pyVer p.grbVer p.platformStr with
    | error e =>
        simp only [runMain, hls]
        exact List.prefix_refl _
    | ok st1 =>
        simp only [runMain, hls]
        have h1 : st1.appLog = st0.appLog
            ++ [startupRec p.ts p.job_id (!((p.bucket.getD ("")).trim.isEmpty))
                  p.pyVer p.grbVer p.platformStr] :=
          log_startup_ok p.env (pushStage st0 Stage.STARTING) p.ts p.job_id
            (!((p.bucket.getD ("")).trim.isEmpty)) p.pyVer p.grbVer p.platformStr st1 hls
        obtain ⟨l2, h2⟩ := mainAfterStartup_appLog st1 p
          (!((p.bucket.getD ("")).trim.isEmpty))
        rw [h2, h1, List.append_assoc]
        exact List.prefix_append _ _

end GurobiSample
